import Mathlib

/-!
Shallow embedding of the AguaSur domain/business layer (Python source under
`src/`): entities `Familia`, `Cisterna`, `Llenado`, `Reporte` with their
constructor validation, the level-mutating operations on `Cisterna`, the
status transitions on `Reporte`, and the use cases `RegistrarFamilia`,
`RegistrarCisterna`, `RegistrarLlenado`, `CrearReporte` and the alert
derivation of `ObtenerDashboard`.

Modelling conventions:
- Python `int` is `Int`; Python `float` fields that only ever undergo
  comparison or exact arithmetic are `Rat`.
- A Python method that mutates `self` and may `raise` is a function
  `α → Except String α`; every `raise` in the source happens before any
  mutation, so an `.error` result carries no state change.
- Dataclass `__post_init__` validation is a smart constructor `mk?`
  returning `Except String` the validated (normalised) entity.
- `datetime.now()` is an explicit `now : Nat` parameter where a claim
  depends on it (`Reporte`); timestamp fields irrelevant to every claim
  (`fecha_instalacion`, `ultima_actualizacion`, `fecha_registro`,
  `fecha` of `Llenado`) are omitted.
- A MongoDB collection is a `List` of entities; `find_one` by id is
  `List.find?` on the id field, `insert_one` appends, `update_one` by id
  replaces the first entity with a matching id.
- Python truthiness of an `Optional[str]` (`if s:`) is
  `(s.getD "") ≠ ""`; truthiness plus `.strip()` emptiness tests on a
  `str` (`if not s or not s.strip():`) collapse to `pyStrip s == ""`.
-/

deriving instance DecidableEq for Except

namespace AguaSur

/-- Python `str.strip()`: drop leading and trailing whitespace. (Stated
over the character list so that it evaluates by kernel reduction.) -/
def pyStrip (s : String) : String :=
  ⟨List.reverse (List.dropWhile Char.isWhitespace
    (List.reverse (List.dropWhile Char.isWhitespace s.data)))⟩

/-- Python `not s or not s.strip()`: the string is empty or whitespace only. -/
def blank (s : String) : Bool := pyStrip s == ""

/-- Truthiness of a Python `Optional[str]`: not `None` and not `""`. -/
def strTruthy (o : Option String) : Bool := o.getD "" ≠ ""

/-- Whether an `Except` models a Python call that returned without raising. -/
def okB {ε α : Type} : Except ε α → Bool
  | .ok _ => true
  | .error _ => false

/-- Tank categories (`TipoCisterna` enum in `cisterna.py`). -/
inductive TipoCisterna where
  | familiar
  | comunitaria
  | escolar
  | centroSalud
deriving DecidableEq, Repr

/-- Parse of the `TipoCisterna` enum from its string value, as
`TipoCisterna(tipo)` does in Python (failure models the raised
`ValueError`). -/
def TipoCisterna.ofString? : String → Option TipoCisterna
  | "familiar" => some .familiar
  | "comunitaria" => some .comunitaria
  | "escolar" => some .escolar
  | "centro_salud" => some .centroSalud
  | _ => none

/-- Tank operational states (`EstadoCisterna` enum in `cisterna.py`). -/
inductive EstadoCisterna where
  | operativa
  | danada
  | enMantenimiento
  | inactiva
deriving DecidableEq, Repr

/-- The `Cisterna` entity (`cisterna.py`), timestamps omitted. -/
structure Cisterna where
  ubicacion : String
  tipo : TipoCisterna
  capacidad_total : Int
  nivel_actual : Int
  latitud : Option Rat
  longitud : Option Rat
  familia_id : Option String
  estado : EstadoCisterna
  id : Option String
deriving DecidableEq, Repr

/-- Validating constructor of `Cisterna`: the checks of
`Cisterna.__post_init__`, in source order, then the `ubicacion`
normalisation. -/
def Cisterna.mk? (ubicacion : String) (tipo : TipoCisterna)
    (capacidad_total nivel_actual : Int) (latitud longitud : Option Rat)
    (familia_id : Option String) (estado : EstadoCisterna)
    (id : Option String) : Except String Cisterna :=
  if blank ubicacion then
    .error "La ubicacion no puede estar vacia"
  else if capacidad_total ≤ 0 then
    .error "La capacidad total debe ser mayor a 0"
  else if nivel_actual < 0 then
    .error "El nivel actual no puede ser negativo"
  else if nivel_actual > capacidad_total then
    .error "El nivel actual no puede ser mayor a la capacidad total"
  else
    .ok { ubicacion := pyStrip ubicacion, tipo, capacidad_total, nivel_actual,
          latitud, longitud, familia_id, estado, id }

/-- Model of `Cisterna.llenar`: rejects a non-positive amount, otherwise adds it to
the level, clamping at capacity. -/
def Cisterna.llenar (c : Cisterna) (litros : Int) : Except String Cisterna :=
  if litros ≤ 0 then
    .error "La cantidad debe ser mayor a 0"
  else
    let nuevo_nivel := c.nivel_actual + litros
    if nuevo_nivel > c.capacidad_total then
      .ok { c with nivel_actual := c.capacidad_total }
    else
      .ok { c with nivel_actual := nuevo_nivel }

/-- Model of `Cisterna.consumir`: rejects a non-positive amount or one exceeding the
current level, otherwise subtracts it. -/
def Cisterna.consumir (c : Cisterna) (litros : Int) : Except String Cisterna :=
  if litros ≤ 0 then
    .error "La cantidad debe ser mayor a 0"
  else if litros > c.nivel_actual then
    .error "No hay suficiente agua"
  else
    .ok { c with nivel_actual := c.nivel_actual - litros }

/-- A level operation requested on a tank. -/
inductive Op where
  | llenar (litros : Int)
  | consumir (litros : Int)
deriving DecidableEq, Repr

/-- Execute one operation, catching the exception: every `raise` in
`llenar`/`consumir` occurs before any mutation, so a failing call leaves
the caller's object exactly as it was. -/
def Cisterna.runOp (c : Cisterna) : Op → Cisterna
  | .llenar litros =>
    match c.llenar litros with
    | .ok c2 => c2
    | .error _ => c
  | .consumir litros =>
    match c.consumir litros with
    | .ok c2 => c2
    | .error _ => c

/-- Execute a sequence of fill/consume operations, each failure leaving the
tank untouched. -/
def Cisterna.runOps (c : Cisterna) (ops : List Op) : Cisterna :=
  ops.foldl Cisterna.runOp c

/-- The level invariant of a tank: `0 ≤ level ≤ capacity`. -/
def Cisterna.inv (c : Cisterna) : Prop :=
  0 ≤ c.nivel_actual ∧ c.nivel_actual ≤ c.capacidad_total

/-- The `Familia` entity (`familia.py`), registration timestamp omitted. -/
structure Familia where
  direccion : String
  num_personas : Int
  contacto : String
  capacidad_almacenamiento : Int
  tiene_cisterna : Bool
  zona : String
  consumo_promedio_diario : Rat
  id : Option String
  activo : Bool
deriving DecidableEq, Repr

/-- Validating constructor of `Familia`: the checks of
`Familia.__post_init__` in source order, then the trim normalisation of
`direccion`, `contacto` and `zona`, and the `occupants × 50` consumption
default when none is supplied. Note the source never validates `zona`. -/
def Familia.mk? (direccion : String) (num_personas : Int) (contacto : String)
    (capacidad_almacenamiento : Int) (tiene_cisterna : Bool) (zona : String)
    (consumo_promedio_diario : Option Rat) (id : Option String)
    (activo : Bool) : Except String Familia :=
  if blank direccion then
    .error "La direccion no puede estar vacia"
  else if num_personas ≤ 0 then
    .error "El numero de personas debe ser mayor a 0"
  else if capacidad_almacenamiento ≤ 0 then
    .error "La capacidad de almacenamiento debe ser mayor a 0"
  else if blank contacto then
    .error "El contacto no puede estar vacio"
  else
    .ok { direccion := pyStrip direccion, num_personas,
          contacto := pyStrip contacto, capacidad_almacenamiento,
          tiene_cisterna, zona := pyStrip zona,
          consumo_promedio_diario :=
            consumo_promedio_diario.getD ((num_personas : Rat) * 50),
          id, activo }

/-- The `Llenado` (refill record) entity (`llenado.py`), timestamp
omitted. -/
structure Llenado where
  cisterna_id : String
  litros_suministrados : Int
  costo : Rat
  proveedor : String
  nivel_anterior : Int
  nivel_posterior : Int
  observaciones : Option String
  id : Option String
deriving DecidableEq, Repr

/-- Validating constructor of `Llenado`: the checks of
`Llenado.__post_init__` in source order, then the trim normalisation of
`proveedor` and (when truthy) `observaciones`. -/
def Llenado.mk? (cisterna_id : String) (litros_suministrados : Int)
    (costo : Rat) (proveedor : String) (nivel_anterior nivel_posterior : Int)
    (observaciones : Option String) (id : Option String) :
    Except String Llenado :=
  if blank cisterna_id then
    .error "El cisterna_id no puede estar vacio"
  else if litros_suministrados ≤ 0 then
    .error "Los litros suministrados deben ser mayores a 0"
  else if costo < 0 then
    .error "El costo no puede ser negativo"
  else if blank proveedor then
    .error "El proveedor no puede estar vacio"
  else if nivel_anterior < 0 then
    .error "El nivel anterior no puede ser negativo"
  else if nivel_posterior < nivel_anterior then
    .error "El nivel posterior no puede ser menor al nivel anterior"
  else
    .ok { cisterna_id, litros_suministrados, costo,
          proveedor := pyStrip proveedor, nivel_anterior, nivel_posterior,
          observaciones :=
            if strTruthy observaciones then
              some (pyStrip (observaciones.getD ""))
            else observaciones,
          id }

/-- Report categories (`TipoReporte` enum in `reporte.py`). -/
inductive TipoReporte where
  | aguaAcabandose
  | aguaContaminada
  | cisternaDanada
  | fugaAgua
  | solicitudLlenado
  | otro
deriving DecidableEq, Repr

/-- Parse of the `TipoReporte` enum from its string value. -/
def TipoReporte.ofString? : String → Option TipoReporte
  | "agua_acabandose" => some .aguaAcabandose
  | "agua_contaminada" => some .aguaContaminada
  | "cisterna_dañada" => some .cisternaDanada
  | "fuga_agua" => some .fugaAgua
  | "solicitud_llenado" => some .solicitudLlenado
  | "otro" => some .otro
  | _ => none

/-- Urgency levels (`Urgencia` enum in `reporte.py`). -/
inductive Urgencia where
  | baja
  | media
  | alta
  | critica
deriving DecidableEq, Repr

/-- Parse of the `Urgencia` enum from its string value. -/
def Urgencia.ofString? : String → Option Urgencia
  | "baja" => some .baja
  | "media" => some .media
  | "alta" => some .alta
  | "critica" => some .critica
  | _ => none

/-- Report states (`EstadoReporte` enum in `reporte.py`). -/
inductive EstadoReporte where
  | pendiente
  | enRevision
  | enProceso
  | resuelto
  | cerrado
deriving DecidableEq, Repr

/-- The `Reporte` entity (`reporte.py`); `datetime` values are abstract
instants `Nat`. -/
structure Reporte where
  familia_id : String
  tipo : TipoReporte
  descripcion : String
  urgencia : Urgencia
  estado : EstadoReporte
  cisterna_id : Option String
  latitud : Option Rat
  longitud : Option Rat
  fecha_reporte : Nat
  fecha_resolucion : Option Nat
  observaciones_resolucion : Option String
  id : Option String
deriving DecidableEq, Repr

/-- Validating constructor of `Reporte`: the checks of
`Reporte.__post_init__` in source order, the trim normalisation of
`descripcion` and (when truthy) `observaciones_resolucion`, and the
report-date default `now`. -/
def Reporte.mk? (familia_id : String) (tipo : TipoReporte)
    (descripcion : String) (urgencia : Urgencia) (estado : EstadoReporte)
    (cisterna_id : Option String) (latitud longitud : Option Rat)
    (fecha_reporte : Option Nat) (fecha_resolucion : Option Nat)
    (observaciones_resolucion : Option String) (id : Option String)
    (now : Nat) : Except String Reporte :=
  if blank familia_id then
    .error "El familia_id no puede estar vacio"
  else if blank descripcion then
    .error "La descripcion no puede estar vacia"
  else
    .ok { familia_id, tipo, descripcion := pyStrip descripcion, urgencia,
          estado, cisterna_id, latitud, longitud,
          fecha_reporte := fecha_reporte.getD now, fecha_resolucion,
          observaciones_resolucion :=
            if strTruthy observaciones_resolucion then
              some (pyStrip (observaciones_resolucion.getD ""))
            else observaciones_resolucion,
          id }

/-- Model of `Reporte.cambiar_estado`: set the new status; on entering resolved or
closed, stamp the resolution date only if it is not already set. -/
def Reporte.cambiar_estado (r : Reporte) (nuevo_estado : EstadoReporte)
    (now : Nat) : Reporte :=
  let r2 := { r with estado := nuevo_estado }
  if nuevo_estado = .resuelto ∨ nuevo_estado = .cerrado then
    if r2.fecha_resolucion = none then
      { r2 with fecha_resolucion := some now }
    else r2
  else r2

/-- Model of `Reporte.resolver`: set status to resolved, stamp the resolution date
with the current instant unconditionally, and attach trimmed notes when
the notes string is truthy. -/
def Reporte.resolver (r : Reporte) (observaciones : String) (now : Nat) :
    Reporte :=
  let r2 := { r with estado := EstadoReporte.resuelto,
                     fecha_resolucion := some now }
  if observaciones ≠ "" then
    { r2 with observaciones_resolucion := some (pyStrip observaciones) }
  else r2

/-- MongoDB `find_one` by `_id`: first stored entity whose id matches. -/
def obtenerPorId {α : Type} (idOf : α → Option String) (store : List α)
    (i : String) : Option α :=
  store.find? (fun d => idOf d == some i)

/-- MongoDB `update_one` by `_id` with a `$set` of the whole document:
replace the first stored entity whose id matches the updated entity's. -/
def updateOne {α : Type} (idOf : α → Option String) (x : α) :
    List α → List α
  | [] => []
  | d :: rest =>
    if idOf d == idOf x then x :: rest else d :: updateOne idOf x rest

/-- The persistent state behind the four repository gateways: one MongoDB
collection per entity. -/
structure DB where
  familias : List Familia
  cisternas : List Cisterna
  llenados : List Llenado
  reportes : List Reporte
deriving DecidableEq, Repr

/-- Model of `RegistrarFamilia.ejecutar`: reject a duplicate contact (looked up by
exact match, as `find_one` on the `contacto` field does), then construct
the validated `Familia` and insert it. An `.error` result carries the
database exactly as it was at the raise point. -/
def RegistrarFamilia.ejecutar (st : DB) (direccion : String)
    (num_personas : Int) (contacto : String)
    (capacidad_almacenamiento : Int) (tiene_cisterna : Bool) (zona : String)
    (consumo_promedio_diario : Option Rat) : DB × Except String Familia :=
  match st.familias.find? (fun f => f.contacto == contacto) with
  | some _ => (st, .error "Ya existe una familia registrada con el contacto")
  | none =>
    match Familia.mk? direccion num_personas contacto
        capacidad_almacenamiento tiene_cisterna zona
        consumo_promedio_diario none true with
    | .error e => (st, .error e)
    | .ok familia =>
      ({ st with familias := st.familias ++ [familia] }, .ok familia)

/-- Steps 3-4 of `RegistrarCisterna.ejecutar`: construct the validated
tank (status operational) and insert it. -/
def registrarCisternaGuardar (st : DB) (ubicacion : String)
    (tipo_cisterna : TipoCisterna) (capacidad_total nivel_actual : Int)
    (latitud longitud : Option Rat) (familia_id : Option String) :
    DB × Except String Cisterna :=
  match Cisterna.mk? ubicacion tipo_cisterna capacidad_total nivel_actual
      latitud longitud familia_id .operativa none with
  | .error e => (st, .error e)
  | .ok cisterna =>
    ({ st with cisternas := st.cisternas ++ [cisterna] }, .ok cisterna)

/-- Model of `RegistrarCisterna.ejecutar`: parse the category; when it is `familiar`
and a (truthy) household id is given, fetch the household — failing if
absent — and, if its owns-tank flag is false, flip it and persist the
household update before the tank is even constructed; then construct and
insert the tank. -/
def RegistrarCisterna.ejecutar (st : DB) (ubicacion tipo : String)
    (capacidad_total nivel_actual : Int) (latitud longitud : Option Rat)
    (familia_id : Option String) : DB × Except String Cisterna :=
  match TipoCisterna.ofString? tipo with
  | none => (st, .error "Tipo de cisterna invalido")
  | some tipo_cisterna =>
    if tipo_cisterna == .familiar && strTruthy familia_id then
      match obtenerPorId Familia.id st.familias (familia_id.getD "") with
      | none => (st, .error "No se encontro la familia")
      | some familia =>
        let familias2 :=
          updateOne Familia.id { familia with tiene_cisterna := true }
            st.familias
        let st1 :=
          if familia.tiene_cisterna then st
          else { st with familias := familias2 }
        registrarCisternaGuardar st1 ubicacion tipo_cisterna capacidad_total
          nivel_actual latitud longitud familia_id
    else
      registrarCisternaGuardar st ubicacion tipo_cisterna capacidad_total
        nivel_actual latitud longitud familia_id

/-- Model of `RegistrarLlenado.ejecutar`: fetch the tank (failing if absent), require
it operational, capture the level before, fill, capture the level after,
construct the validated refill record from the two captured levels, insert
the record, then persist the updated tank. -/
def RegistrarLlenado.ejecutar (st : DB) (cisterna_id : String)
    (litros_suministrados : Int) (costo : Rat) (proveedor : String)
    (observaciones : Option String) : DB × Except String Llenado :=
  match obtenerPorId Cisterna.id st.cisternas cisterna_id with
  | none => (st, .error "No se encontro la cisterna")
  | some cisterna =>
    if !(cisterna.estado == .operativa) then
      (st, .error "La cisterna no esta operativa")
    else
      let nivel_anterior := cisterna.nivel_actual
      match cisterna.llenar litros_suministrados with
      | .error e => (st, .error e)
      | .ok cisterna2 =>
        let nivel_posterior := cisterna2.nivel_actual
        match Llenado.mk? cisterna_id litros_suministrados costo proveedor
            nivel_anterior nivel_posterior observaciones none with
        | .error e => (st, .error e)
        | .ok llenado =>
          let st1 := { st with llenados := st.llenados ++ [llenado] }
          let st2 := { st1 with cisternas :=
                         updateOne Cisterna.id cisterna2 st1.cisternas }
          (st2, .ok llenado)

/-- Model of `CrearReporte.ejecutar`: require the household to exist, parse category
and urgency, require the tank to exist when a truthy tank id is given,
raise a low urgency to medium when the category is water-running-out, then
construct the validated report (status pending) and insert it. -/
def CrearReporte.ejecutar (st : DB) (familia_id tipo descripcion : String)
    (urgencia : String) (cisterna_id : Option String)
    (latitud longitud : Option Rat) (now : Nat) :
    DB × Except String Reporte :=
  match obtenerPorId Familia.id st.familias familia_id with
  | none => (st, .error "No se encontro la familia")
  | some _ =>
    match TipoReporte.ofString? tipo with
    | none => (st, .error "Tipo de reporte invalido")
    | some tipo_reporte =>
      match Urgencia.ofString? urgencia with
      | none => (st, .error "Nivel de urgencia invalido")
      | some nivel_urgencia =>
        if strTruthy cisterna_id &&
            (obtenerPorId Cisterna.id st.cisternas
              (cisterna_id.getD "")).isNone then
          (st, .error "No se encontro la cisterna")
        else
          let nivel_urgencia2 :=
            if tipo_reporte == .aguaAcabandose && nivel_urgencia == .baja
            then Urgencia.media else nivel_urgencia
          match Reporte.mk? familia_id tipo_reporte descripcion
              nivel_urgencia2 .pendiente cisterna_id latitud longitud
              none none none none now with
          | .error e => (st, .error e)
          | .ok reporte =>
            ({ st with reportes := st.reportes ++ [reporte] }, .ok reporte)

/-- Model of `Cisterna.porcentaje_lleno`: fill percentage, 0 when capacity is 0. -/
def Cisterna.porcentaje_lleno (c : Cisterna) : Rat :=
  if c.capacidad_total = 0 then 0
  else (c.nivel_actual : Rat) / (c.capacidad_total : Rat) * 100

/-- Model of `Cisterna.nivel_critico`: fill percentage at or below the critical
threshold. -/
def Cisterna.nivel_critico (c : Cisterna) (porcentaje_critico : Rat) : Bool :=
  c.porcentaje_lleno ≤ porcentaje_critico

/-- Model of `Cisterna.nivel_bajo`: fill percentage at or below the low threshold. -/
def Cisterna.nivel_bajo (c : Cisterna) (porcentaje_bajo : Rat) : Bool :=
  c.porcentaje_lleno ≤ porcentaje_bajo

/-- Repository `obtener_vacias` count: tanks at level exactly 0, in any
operational state. -/
def contarVacias (st : DB) : Nat :=
  (st.cisternas.filter (fun c => c.nivel_actual == 0)).length

/-- Repository `obtener_con_nivel_critico` count: operational tanks whose
fill percentage is at most 20. -/
def contarNivelCritico (st : DB) : Nat :=
  (st.cisternas.filter
    (fun c => c.estado == .operativa && c.nivel_critico 20)).length

/-- Repository `obtener_con_nivel_bajo` count: operational tanks whose fill
percentage is at most 40. -/
def contarNivelBajo (st : DB) : Nat :=
  (st.cisternas.filter
    (fun c => c.estado == .operativa && c.nivel_bajo 40)).length

/-- Repository `contar_urgentes` count: reports of high or critical urgency
whose status is pending or in-review. -/
def contarUrgentes (st : DB) : Nat :=
  (st.reportes.filter
    (fun r => (r.urgencia == .alta || r.urgencia == .critica) &&
              (r.estado == .pendiente || r.estado == .enRevision))).length

/-- One dashboard alert entry: severity tag, message, count. -/
structure Alerta where
  tipo : String
  mensaje : String
  cantidad : Nat
deriving DecidableEq, Repr

/-- The alert-synthesis block of `ObtenerDashboard.ejecutar` (lines 82-111
of `obtener_dashboard.py`): sequentially append, for each of the four
categories in source order, an entry exactly when its count is positive. -/
def ObtenerDashboard.alertas (st : DB) : List Alerta :=
  let cisternas_vacias := contarVacias st
  let cisternas_nivel_critico := contarNivelCritico st
  let reportes_urgentes := contarUrgentes st
  let cisternas_nivel_bajo := contarNivelBajo st
  (if cisternas_vacias > 0 then
    [{ tipo := "critico",
       mensaje := toString cisternas_vacias ++ " cisterna(s) vacia(s)",
       cantidad := cisternas_vacias }]
   else []) ++
  (if cisternas_nivel_critico > 0 then
    [{ tipo := "urgente",
       mensaje := toString cisternas_nivel_critico ++
         " cisterna(s) con nivel critico",
       cantidad := cisternas_nivel_critico }]
   else []) ++
  (if reportes_urgentes > 0 then
    [{ tipo := "urgente",
       mensaje := toString reportes_urgentes ++
         " reporte(s) urgente(s) pendiente(s)",
       cantidad := reportes_urgentes }]
   else []) ++
  (if cisternas_nivel_bajo > 0 then
    [{ tipo := "advertencia",
       mensaje := toString cisternas_nivel_bajo ++
         " cisterna(s) con nivel bajo",
       cantidad := cisternas_nivel_bajo }]
   else [])

/-- The candidate empty-tank alert entry, defined for any count. -/
def alertaVacias (st : DB) : Alerta :=
  { tipo := "critico",
    mensaje := toString (contarVacias st) ++ " cisterna(s) vacia(s)",
    cantidad := contarVacias st }

/-- The candidate critical-level alert entry, defined for any count. -/
def alertaCritico (st : DB) : Alerta :=
  { tipo := "urgente",
    mensaje := toString (contarNivelCritico st) ++
      " cisterna(s) con nivel critico",
    cantidad := contarNivelCritico st }

/-- The candidate urgent-unresolved-report alert entry, defined for any
count. -/
def alertaUrgentes (st : DB) : Alerta :=
  { tipo := "urgente",
    mensaje := toString (contarUrgentes st) ++
      " reporte(s) urgente(s) pendiente(s)",
    cantidad := contarUrgentes st }

/-- The candidate low-level alert entry, defined for any count. -/
def alertaBajo (st : DB) : Alerta :=
  { tipo := "advertencia",
    mensaje := toString (contarNivelBajo st) ++
      " cisterna(s) con nivel bajo",
    cantidad := contarNivelBajo st }

/-- A sample validated tank: 1000 L capacity, level 800, operational. -/
def cisternaEjemplo : Cisterna :=
  { ubicacion := "Colegio Zona Sud", tipo := .familiar,
    capacidad_total := 1000, nivel_actual := 800, latitud := none,
    longitud := none, familia_id := none, estado := .operativa,
    id := some "c1" }

/-- A sample report, pending and not yet resolved. -/
def reporteEjemplo : Reporte :=
  { familia_id := "f1", tipo := .aguaAcabandose,
    descripcion := "sin agua desde ayer", urgencia := .media,
    estado := .pendiente, cisterna_id := none, latitud := none,
    longitud := none, fecha_reporte := 1, fecha_resolucion := none,
    observaciones_resolucion := none, id := some "r1" }

/-- A sample registered household, not owning a tank. -/
def familiaEjemplo : Familia :=
  { direccion := "Av. Principal 1", num_personas := 4, contacto := "777",
    capacidad_almacenamiento := 500, tiene_cisterna := false,
    zona := "Zona Sud", consumo_promedio_diario := 200, id := some "f1",
    activo := true }

/-- A sample database holding the sample household and the sample tank. -/
def dbEjemplo : DB :=
  { familias := [familiaEjemplo], cisternas := [cisternaEjemplo],
    llenados := [], reportes := [] }

/-- The empty database. -/
def dbVacia : DB :=
  { familias := [], cisternas := [], llenados := [], reportes := [] }

/-- A household with its owns-tank flag set, as `RegistrarCisterna`
produces before persisting the household update. -/
def familiaConCisterna (f : Familia) : Familia :=
  { f with tiene_cisterna := true }

/-- A successful fill adds the requested amount, clamped at capacity. -/
theorem llenar_pos (c : Cisterna) (x : Int) (hx : 0 < x) :
    c.llenar x =
      .ok { c with nivel_actual := min (c.nivel_actual + x) c.capacidad_total } := by
  unfold Cisterna.llenar
  rw [if_neg (by omega)]
  dsimp only
  split_ifs with h
  · rw [min_eq_right (by omega)]
  · rw [min_eq_left (by omega)]

/-- C5: for every tank and every integer x, `fill x` fails exactly when
x ≤ 0; when 0 < x it succeeds with level `min (level + x) capacity`, and
in particular when x exceeds `capacity - level` it succeeds with the level
clamped to exactly the capacity. -/
theorem C5_fill_spec (c : Cisterna) (x : Int) :
    (okB (c.llenar x) = true ↔ 0 < x) ∧
    (0 < x → c.llenar x =
      .ok { c with nivel_actual := min (c.nivel_actual + x) c.capacidad_total }) ∧
    (0 < x → c.capacidad_total - c.nivel_actual < x →
      ∃ c2, c.llenar x = .ok c2 ∧ c2.nivel_actual = c.capacidad_total) := by
  refine ⟨?_, ?_, ?_⟩
  · unfold Cisterna.llenar
    dsimp only
    split_ifs with h1 h2 <;> simp only [okB] <;> simp <;> omega
  · intro hx
    exact llenar_pos c x hx
  · intro hx hclamp
    unfold Cisterna.llenar
    rw [if_neg (by omega)]
    dsimp only
    rw [if_pos (by omega)]
    exact ⟨_, rfl, rfl⟩

/-- Witness for C5 at the sample tank and x = 500: the fill succeeds and
clamps the level to the 1000 L capacity. -/
theorem C5_fill_spec_witness :
    ∃ c2, cisternaEjemplo.llenar 500 = .ok c2 ∧
      c2.nivel_actual = cisternaEjemplo.capacidad_total :=
  (C5_fill_spec cisternaEjemplo 500).2.2 (by decide) (by decide)

/-- C6: for every tank and every integer x, `consume x` fails exactly when
x ≤ 0 or x exceeds the current level; on success the level decreases by
exactly x, and a failing call (executed with its exception caught) leaves
the tank unchanged. -/
theorem C6_consume_spec (c : Cisterna) (x : Int) :
    (okB (c.consumir x) = true ↔ 0 < x ∧ x ≤ c.nivel_actual) ∧
    (∀ c2, c.consumir x = .ok c2 →
      c2.nivel_actual = c.nivel_actual - x) ∧
    (okB (c.consumir x) = false → c.runOp (.consumir x) = c) := by
  refine ⟨?_, ?_, ?_⟩
  · unfold Cisterna.consumir
    split_ifs with h1 h2 <;> simp only [okB] <;> simp <;> omega
  · intro c2 h
    unfold Cisterna.consumir at h
    split_ifs at h
    injection h with h
    rw [← h]
  · intro hfail
    unfold Cisterna.runOp
    dsimp only
    cases hc : c.consumir x with
    | ok c2 =>
      rw [hc] at hfail
      simp [okB] at hfail
    | error e => rfl

/-- Witness for C6 at the sample tank (level 800) and x = 900: the consume
fails and the caught-exception execution leaves the tank unchanged. -/
theorem C6_consume_spec_witness :
    okB (cisternaEjemplo.consumir 900) = false ∧
    cisternaEjemplo.runOp (.consumir 900) = cisternaEjemplo := by
  refine ⟨by decide, (C6_consume_spec cisternaEjemplo 900).2.2 (by decide)⟩

/-- Construction through validation establishes the level invariant. -/
theorem mkQ_inv (ubicacion : String) (tipo : TipoCisterna)
    (capacidad_total nivel_actual : Int) (latitud longitud : Option Rat)
    (familia_id : Option String) (estado : EstadoCisterna)
    (id : Option String) (c : Cisterna)
    (h : Cisterna.mk? ubicacion tipo capacidad_total nivel_actual latitud
      longitud familia_id estado id = .ok c) : c.inv := by
  unfold Cisterna.mk? at h
  split_ifs at h with h1 h2 h3 h4
  injection h with h
  subst h
  change 0 ≤ nivel_actual ∧ nivel_actual ≤ capacidad_total
  omega

/-- Each caught-exception fill/consume execution preserves the level
invariant. -/
theorem runOp_inv (c : Cisterna) (op : Op) (h : c.inv) :
    (c.runOp op).inv := by
  obtain ⟨h0, h1⟩ := h
  cases op with
  | llenar litros =>
    unfold Cisterna.runOp Cisterna.llenar
    dsimp only
    split_ifs with hl hcap
    · exact ⟨h0, h1⟩
    · change 0 ≤ c.capacidad_total ∧ c.capacidad_total ≤ c.capacidad_total
      omega
    · change 0 ≤ c.nivel_actual + litros ∧
        c.nivel_actual + litros ≤ c.capacidad_total
      omega
  | consumir litros =>
    unfold Cisterna.runOp Cisterna.consumir
    dsimp only
    split_ifs with hl hn
    · exact ⟨h0, h1⟩
    · exact ⟨h0, h1⟩
    · change 0 ≤ c.nivel_actual - litros ∧
        c.nivel_actual - litros ≤ c.capacidad_total
      omega

/-- Any caught-exception execution sequence preserves the level
invariant. -/
theorem runOps_inv (c : Cisterna) (ops : List Op) (h : c.inv) :
    (c.runOps ops).inv := by
  induction ops generalizing c with
  | nil => exact h
  | cons op rest ih => exact ih (c.runOp op) (runOp_inv c op h)

/-- C2: for every tank constructed through validation, after every sequence
of fill and consume operations (failing calls leaving the tank as they
found it), the level satisfies 0 ≤ level ≤ capacity. -/
theorem C2_level_invariant (ubicacion : String) (tipo : TipoCisterna)
    (capacidad_total nivel_actual : Int) (latitud longitud : Option Rat)
    (familia_id : Option String) (estado : EstadoCisterna)
    (id : Option String) (c : Cisterna) (ops : List Op)
    (h : Cisterna.mk? ubicacion tipo capacidad_total nivel_actual latitud
      longitud familia_id estado id = .ok c) :
    0 ≤ (c.runOps ops).nivel_actual ∧
    (c.runOps ops).nivel_actual ≤ (c.runOps ops).capacidad_total :=
  runOps_inv c ops (mkQ_inv _ _ _ _ _ _ _ _ _ _ h)

/-- Witness for C2: a freshly validated 100 L tank at level 50, after a
mixed sequence of succeeding and failing fills and consumes, still has
0 ≤ level ≤ capacity. -/
theorem C2_level_invariant_witness :
    ∃ c, Cisterna.mk? "Plaza" .comunitaria 100 50 none none none
        .operativa none = .ok c ∧
      (0 ≤ (c.runOps [.llenar 500, .consumir 0, .consumir 700,
          .llenar (-3), .consumir 30]).nivel_actual ∧
        (c.runOps [.llenar 500, .consumir 0, .consumir 700,
          .llenar (-3), .consumir 30]).nivel_actual ≤
        (c.runOps [.llenar 500, .consumir 0, .consumir 700,
          .llenar (-3), .consumir 30]).capacidad_total) := by
  refine ⟨{ ubicacion := "Plaza", tipo := .comunitaria,
            capacidad_total := 100, nivel_actual := 50, latitud := none,
            longitud := none, familia_id := none, estado := .operativa,
            id := none }, by decide, ?_⟩
  exact C2_level_invariant "Plaza" .comunitaria 100 50 none none none
    .operativa none _ _ (by decide)

/-- C3 counterexample: a report first resolved at instant 5 carries
resolution timestamp 5, but a later `resolver` call at instant 7 — a
transition into resolved on a report whose resolution timestamp is already
set — overwrites the timestamp with 7 instead of leaving it at 5. -/
theorem C3_counterexample :
    (reporteEjemplo.cambiar_estado .resuelto 5).fecha_resolucion = some 5 ∧
    ((reporteEjemplo.cambiar_estado .resuelto 5).resolver "" 7).fecha_resolucion
      = some 7 := by
  decide

/-- C3 as amended: a transition through `cambiar_estado` never disturbs an
already-set resolution timestamp (it is stamped there only on the first
entry into resolved/closed), but the convenience operation `resolver`
always restamps the resolution timestamp with the current instant. -/
theorem C3_resolution_timestamp (r : Reporte) :
    (∀ nuevo_estado now t0, r.fecha_resolucion = some t0 →
      (r.cambiar_estado nuevo_estado now).fecha_resolucion = some t0) ∧
    (∀ observaciones now,
      (r.resolver observaciones now).fecha_resolucion = some now) := by
  constructor
  · intro nuevo_estado now t0 ht
    unfold Reporte.cambiar_estado
    dsimp only
    split_ifs with h1 h2
    · rw [ht] at h2
      cases h2
    · exact ht
    · exact ht
  · intro observaciones now
    unfold Reporte.resolver
    dsimp only
    split_ifs with h1 <;> rfl

/-- Witness for C3 as amended: re-entering closed through `cambiar_estado`
at instant 9 leaves the timestamp stamped at instant 5 untouched. -/
theorem C3_resolution_timestamp_witness :
    ((reporteEjemplo.cambiar_estado .resuelto 5).cambiar_estado .cerrado
      9).fecha_resolucion = some 5 :=
  (C3_resolution_timestamp (reporteEjemplo.cambiar_estado .resuelto 5)).1
    .cerrado 9 5 (by decide)

/-- C4 counterexample: a household-construction input with a
whitespace-only zone label but valid address, occupant count, contact and
capacity does not fail — `Familia.__post_init__` never validates `zona`. -/
theorem C4_counterexample :
    okB (Familia.mk? "Av. Principal 1" 4 "777" 500 false "   " none none
      true) = true := by
  decide

/-- C4 as amended: household construction never fails on the zone label;
with valid address, contact, occupant count and capacity it succeeds for
every zone label (in particular an empty or whitespace-only one), storing
the trimmed zone. -/
theorem C4_zone_not_validated (direccion : String) (num_personas : Int)
    (contacto : String) (capacidad_almacenamiento : Int)
    (tiene_cisterna : Bool) (zona : String) (consumo : Option Rat)
    (id : Option String) (activo : Bool)
    (hd : blank direccion = false) (hn : 0 < num_personas)
    (hc : 0 < capacidad_almacenamiento) (hco : blank contacto = false) :
    ∃ f, Familia.mk? direccion num_personas contacto
        capacidad_almacenamiento tiene_cisterna zona consumo id activo
        = .ok f ∧ f.zona = pyStrip zona := by
  unfold Familia.mk?
  rw [if_neg (by simp [hd]), if_neg (by omega), if_neg (by omega),
    if_neg (by simp [hco])]
  exact ⟨_, rfl, rfl⟩

/-- Witness for C4 as amended: with a whitespace-only zone and otherwise
valid input, construction succeeds and stores the empty trimmed zone. -/
theorem C4_zone_not_validated_witness :
    ∃ f, Familia.mk? "Av. Principal 1" 4 "777" 500 false "   " none none
      true = .ok f ∧ f.zona = pyStrip "   " :=
  C4_zone_not_validated "Av. Principal 1" 4 "777" 500 false "   " none none
    true (by decide) (by decide) (by decide) (by decide)

/-- C7: when some stored household already has the requested contact,
`RegisterHousehold` raises the conflict before the entity is even
constructed (no matter how invalid the other inputs are) and leaves the
stored collection unchanged. -/
theorem C7_duplicate_contact (st : DB) (direccion : String)
    (num_personas : Int) (contacto : String)
    (capacidad_almacenamiento : Int) (tiene_cisterna : Bool) (zona : String)
    (consumo : Option Rat) (f : Familia) (hf : f ∈ st.familias)
    (hc : f.contacto = contacto) :
    (RegistrarFamilia.ejecutar st direccion num_personas contacto
      capacidad_almacenamiento tiene_cisterna zona consumo).1 = st ∧
    ∃ e, (RegistrarFamilia.ejecutar st direccion num_personas contacto
      capacidad_almacenamiento tiene_cisterna zona consumo).2 = .error e := by
  obtain ⟨g, hg⟩ : ∃ g,
      st.familias.find? (fun x => x.contacto == contacto) = some g := by
    rw [← Option.isSome_iff_exists, List.find?_isSome]
    exact ⟨f, hf, by simp [hc]⟩
  unfold RegistrarFamilia.ejecutar
  rw [hg]
  exact ⟨rfl, _, rfl⟩

/-- Witness for C7: registering a second household with contact "777"
against the sample database fails and leaves the collection unchanged. -/
theorem C7_duplicate_contact_witness :
    (RegistrarFamilia.ejecutar dbEjemplo "Calle 2" 3 "777" 300 false
      "Zona Sud" none).1 = dbEjemplo ∧
    ∃ e, (RegistrarFamilia.ejecutar dbEjemplo "Calle 2" 3 "777" 300 false
      "Zona Sud" none).2 = .error e :=
  C7_duplicate_contact dbEjemplo "Calle 2" 3 "777" 300 false "Zona Sud"
    none familiaEjemplo (by decide) (by decide)

/-- Unfolding of `List.find?` on a cons whose head fails the test. -/
theorem find?_cons_false {α : Type} (p : α → Bool) (a : α) (l : List α)
    (h : p a = false) : (a :: l).find? p = l.find? p := by
  simp [List.find?, h]

/-- Unfolding of `List.find?` on a cons whose head passes the test. -/
theorem find?_cons_true {α : Type} (p : α → Bool) (a : α) (l : List α)
    (h : p a = true) : (a :: l).find? p = some a := by
  simp [List.find?, h]

/-- The entity produced by a successful id lookup carries the looked-up
id. -/
theorem find?_id {α : Type} (idOf : α → Option String) (l : List α)
    (i : String) (x : α)
    (h : l.find? (fun d => idOf d == some i) = some x) : idOf x = some i := by
  have := List.find?_some h
  simpa using this

/-- After an `update_one` by id of an entity carrying the looked-up id, a
lookup of that id returns the updated entity, provided the id was present
before. -/
theorem find?_updateOne {α : Type} (idOf : α → Option String) (l : List α)
    (i : String) (x y : α)
    (hfind : l.find? (fun d => idOf d == some i) = some x)
    (hid : idOf y = some i) :
    (updateOne idOf y l).find? (fun d => idOf d == some i) = some y := by
  induction l with
  | nil => simp [List.find?] at hfind
  | cons a rest ih =>
    rw [updateOne, hid]
    by_cases ha : (idOf a == some i) = true
    · rw [if_pos ha]
      exact find?_cons_true _ y _ (by simp [hid])
    · have ha2 : ((fun d => idOf d == some i) a) = false := by
        simpa using ha
      rw [if_neg (by simpa using ha)]
      rw [find?_cons_false _ a _ ha2]
      rw [find?_cons_false _ a _ ha2] at hfind
      exact ih hfind

/-- C1: `RecordRefill` on an operational valid tank at level L of capacity
C, with positive liters x (and otherwise valid cost/provider inputs),
succeeds; it persists a refill record whose level-before is L and whose
level-after is `min (L + x) C` — the level observed right after the fill
mutation, clamped at capacity — and the tank persisted through the
repository carries exactly that level-after. -/
theorem C1_record_refill (st : DB) (cisterna_id : String) (c : Cisterna)
    (litros : Int) (costo : Rat) (proveedor : String)
    (obs : Option String)
    (hfind : obtenerPorId Cisterna.id st.cisternas cisterna_id = some c)
    (hop : c.estado = .operativa) (hx : 0 < litros) (hcosto : 0 ≤ costo)
    (hprov : blank proveedor = false) (hcid : blank cisterna_id = false)
    (h0 : 0 ≤ c.nivel_actual) (h1 : c.nivel_actual ≤ c.capacidad_total) :
    ∃ st2 ll,
      RegistrarLlenado.ejecutar st cisterna_id litros costo proveedor obs
        = (st2, .ok ll) ∧
      ll.nivel_anterior = c.nivel_actual ∧
      ll.nivel_posterior = min (c.nivel_actual + litros) c.capacidad_total ∧
      st2.llenados = st.llenados ++ [ll] ∧
      ∃ c2, obtenerPorId Cisterna.id st2.cisternas cisterna_id = some c2 ∧
        c2.nivel_actual = ll.nivel_posterior := by
  have hll : Llenado.mk? cisterna_id litros costo proveedor c.nivel_actual
      (min (c.nivel_actual + litros) c.capacidad_total) obs none =
      .ok { cisterna_id := cisterna_id, litros_suministrados := litros,
            costo := costo, proveedor := pyStrip proveedor,
            nivel_anterior := c.nivel_actual,
            nivel_posterior :=
              min (c.nivel_actual + litros) c.capacidad_total,
            observaciones :=
              if strTruthy obs then some (pyStrip (obs.getD "")) else obs,
            id := none } := by
    unfold Llenado.mk?
    rw [if_neg (by simp [hcid]), if_neg (by omega),
      if_neg (not_lt.mpr hcosto), if_neg (by simp [hprov]),
      if_neg (by omega), if_neg (by omega)]
  unfold RegistrarLlenado.ejecutar
  rw [hfind]
  dsimp only
  rw [hop]
  rw [if_neg (by decide)]
  rw [llenar_pos c litros hx]
  dsimp only
  rw [hll]
  refine ⟨_, _, rfl, rfl, rfl, rfl, ?_⟩
  unfold obtenerPorId at hfind ⊢
  have hidc : Cisterna.id c = some cisterna_id :=
    find?_id Cisterna.id st.cisternas cisterna_id c hfind
  exact ⟨_, find?_updateOne Cisterna.id st.cisternas cisterna_id c _ hfind
    hidc, rfl⟩

/-- Witness for C1: in the sample database, refilling the 1000 L tank at
level 800 with 500 L succeeds, records level-before 800 and level-after
1000 (clamped), and persists the tank at level 1000. -/
theorem C1_record_refill_witness :
    ∃ st2 ll,
      RegistrarLlenado.ejecutar dbEjemplo "c1" 500 30 "Pipas de Agua" none
        = (st2, .ok ll) ∧
      ll.nivel_anterior = cisternaEjemplo.nivel_actual ∧
      ll.nivel_posterior =
        min (cisternaEjemplo.nivel_actual + 500)
          cisternaEjemplo.capacidad_total ∧
      st2.llenados = dbEjemplo.llenados ++ [ll] ∧
      ∃ c2, obtenerPorId Cisterna.id st2.cisternas "c1" = some c2 ∧
        c2.nivel_actual = ll.nivel_posterior :=
  C1_record_refill dbEjemplo "c1" cisternaEjemplo 500 30 "Pipas de Agua"
    none (by decide) (by decide) (by decide) (by decide) (by decide)
    (by decide) (by decide) (by decide)

/-- C8: a `CreateIncidentReport` call against an existing household, with
parsable category and urgency, an existing tank whenever a truthy tank
reference is given, and a valid description, persists a report whose
urgency is medium when the category is water-running-out and the request
was low, and exactly the requested urgency in every other combination. -/
theorem C8_urgency_escalation (st : DB)
    (familia_id tipo descripcion urgencia : String)
    (cisterna_id : Option String) (latitud longitud : Option Rat)
    (now : Nat) (t : TipoReporte) (u : Urgencia) (fam : Familia)
    (hfam : obtenerPorId Familia.id st.familias familia_id = some fam)
    (ht : TipoReporte.ofString? tipo = some t)
    (hu : Urgencia.ofString? urgencia = some u)
    (hcis : strTruthy cisterna_id = true →
      (obtenerPorId Cisterna.id st.cisternas (cisterna_id.getD "")).isSome
        = true)
    (hfid : blank familia_id = false) (hdesc : blank descripcion = false) :
    ∃ r, CrearReporte.ejecutar st familia_id tipo descripcion urgencia
        cisterna_id latitud longitud now =
        ({ st with reportes := st.reportes ++ [r] }, .ok r) ∧
      r.urgencia =
        (if t = .aguaAcabandose ∧ u = .baja then .media else u) := by
  have hcond : (strTruthy cisterna_id &&
      (obtenerPorId Cisterna.id st.cisternas
        (cisterna_id.getD "")).isNone) = false := by
    cases hst : strTruthy cisterna_id
    · simp
    · obtain ⟨v, hv⟩ := Option.isSome_iff_exists.mp (hcis hst)
      rw [hv]
      simp
  have hmk : Reporte.mk? familia_id t descripcion
      (if t == .aguaAcabandose && u == .baja then Urgencia.media else u)
      .pendiente cisterna_id latitud longitud none none none none now =
      .ok { familia_id := familia_id, tipo := t,
            descripcion := pyStrip descripcion,
            urgencia := (if t == .aguaAcabandose && u == .baja then
              Urgencia.media else u),
            estado := .pendiente, cisterna_id := cisterna_id,
            latitud := latitud, longitud := longitud, fecha_reporte := now,
            fecha_resolucion := none, observaciones_resolucion := none,
            id := none } := by
    unfold Reporte.mk?
    rw [if_neg (by simp [hfid]), if_neg (by simp [hdesc])]
    rfl
  unfold CrearReporte.ejecutar
  rw [hfam, ht, hu]
  dsimp only
  rw [if_neg (by simp [hcond])]
  rw [hmk]
  refine ⟨_, rfl, ?_⟩
  by_cases h1 : t = .aguaAcabandose <;> by_cases h2 : u = .baja <;>
    simp [h1, h2]

/-- Witness for C8: against the sample database, a water-running-out
report requested at low urgency is persisted with medium urgency. -/
theorem C8_urgency_escalation_witness :
    ∃ r, CrearReporte.ejecutar dbEjemplo "f1" "agua_acabandose"
        "queda muy poca agua" "baja" none none none 3 =
        ({ dbEjemplo with reportes := dbEjemplo.reportes ++ [r] }, .ok r) ∧
      r.urgencia = (if TipoReporte.aguaAcabandose = .aguaAcabandose ∧
        Urgencia.baja = .baja then .media else .baja) :=
  C8_urgency_escalation dbEjemplo "f1" "agua_acabandose"
    "queda muy poca agua" "baja" none none none 3 .aguaAcabandose .baja
    familiaEjemplo (by decide) (by decide) (by decide)
    (by intro h; cases h) (by decide) (by decide)

/-- C9: the dashboard alert list is exactly the fixed ordered candidate
list — empty-tank (severity "critico"), critical-level ("urgente"),
urgent-report ("urgente"), low-level ("advertencia") — filtered down to
the entries with positive count; with no tanks and no reports it is
empty. -/
theorem C9_dashboard_alerts (st : DB) :
    ObtenerDashboard.alertas st =
      List.filter (fun a => decide (0 < a.cantidad))
        [alertaVacias st, alertaCritico st, alertaUrgentes st,
          alertaBajo st] ∧
    (st.cisternas = [] → st.reportes = [] →
      ObtenerDashboard.alertas st = []) := by
  constructor
  · rcases Nat.eq_zero_or_pos (contarVacias st) with hv | hv <;>
    rcases Nat.eq_zero_or_pos (contarNivelCritico st) with hc | hc <;>
    rcases Nat.eq_zero_or_pos (contarUrgentes st) with hu | hu <;>
    rcases Nat.eq_zero_or_pos (contarNivelBajo st) with hb | hb <;>
      simp [ObtenerDashboard.alertas, alertaVacias, alertaCritico,
        alertaUrgentes, alertaBajo, List.filter, hv, hc, hu, hb,
        Nat.pos_iff_ne_zero, Nat.not_eq_zero_of_lt]
  · intro hcis hrep
    simp [ObtenerDashboard.alertas, contarVacias, contarNivelCritico,
      contarUrgentes, contarNivelBajo, hcis, hrep]

/-- Witness for C9 at the empty database: the alert list equals the
filtered candidate list and is empty. -/
theorem C9_dashboard_alerts_witness :
    ObtenerDashboard.alertas dbVacia =
      List.filter (fun a => decide (0 < a.cantidad))
        [alertaVacias dbVacia, alertaCritico dbVacia,
          alertaUrgentes dbVacia, alertaBajo dbVacia] ∧
    ObtenerDashboard.alertas dbVacia = [] :=
  ⟨(C9_dashboard_alerts dbVacia).1,
    (C9_dashboard_alerts dbVacia).2 rfl rfl⟩

/-- C10: a family-category `RegisterTank` call against an existing
household whose owns-tank flag is false, with tank parameters that fail
tank validation, persists the flipped owns-tank flag through the
household repository and then raises the validation error: the flag
update remains in the stored state, and no tank is saved. -/
theorem C10_flag_flip_not_rolled_back (st : DB) (ubicacion : String)
    (capacidad_total nivel_actual : Int) (latitud longitud : Option Rat)
    (fid : String) (familia : Familia) (e : String)
    (hfid : fid ≠ "")
    (hfind : obtenerPorId Familia.id st.familias fid = some familia)
    (hflag : familia.tiene_cisterna = false)
    (hbad : Cisterna.mk? ubicacion .familiar capacidad_total nivel_actual
      latitud longitud (some fid) .operativa none = .error e) :
    RegistrarCisterna.ejecutar st ubicacion "familiar" capacidad_total
      nivel_actual latitud longitud (some fid) =
      ({ st with familias := (updateOne Familia.id
          (familiaConCisterna familia) st.familias) }, .error e) := by
  unfold RegistrarCisterna.ejecutar
  rw [show TipoCisterna.ofString? "familiar" = some TipoCisterna.familiar
    from by decide]
  dsimp only
  rw [if_pos (by simp [strTruthy, hfid])]
  rw [Option.getD_some, hfind]
  dsimp only
  rw [hflag]
  rw [if_neg (by decide)]
  unfold registrarCisternaGuardar
  rw [hbad]
  rfl

/-- Witness for C10: registering a family tank with a blank location
against the sample database fails validation, yet the sample household is
persisted with its owns-tank flag flipped, and no tank is stored. -/
theorem C10_flag_flip_not_rolled_back_witness :
    RegistrarCisterna.ejecutar dbEjemplo "   " "familiar" 1000 0 none none
      (some "f1") =
      ({ dbEjemplo with familias := (updateOne Familia.id
          (familiaConCisterna familiaEjemplo)
          dbEjemplo.familias) }, .error "La ubicacion no puede estar vacia") :=
  C10_flag_flip_not_rolled_back dbEjemplo "   " 1000 0 none none "f1"
    familiaEjemplo "La ubicacion no puede estar vacia" (by decide)
    (by decide) (by decide) (by decide)

end AguaSur
